import Mathlib

/-!
Verification of the consensus core and RPC envelope of the sia-core
repository.  The Go sources are shallowly embedded: machine integers
become `Nat` with explicit `% 2 ^ w` where overflow matters, byte
streams become `List Nat`, and fallible operations return `Option`.
Definitions follow the Go source (`consensus/state.go`, `net/rpc/rpc.go`);
pieces of the repository that live outside the provided sources
(the `types` codec package, `types.Currency`, the BLAKE2b digest and the
mainnet parameters) are modelled from the specification and marked as such.
-/

namespace SiaCore

/-! ## Binary codec primitives

Modelled from the spec: the `types.Encoder` / `types.Decoder`
pair is not under src/.  The spec fixes the wire format: fixed-width
little-endian unsigned integers, u64 length prefixes, a single byte for
booleans, i64 nanoseconds for times, raw bytes for 32-byte identifiers
and 16-byte currency values.  Encoders produce byte lists; decoders
consume a byte list and return the decoded value together with the
remaining bytes, `none` signalling a (sticky) decode error. -/

def toBytesLE : Nat → Nat → List Nat
  | 0, _ => []
  | k + 1, n => n % 256 :: toBytesLE k (n / 256)

def fromBytesLE : List Nat → Nat
  | [] => 0
  | b :: bs => b + 256 * fromBytesLE bs

/-- Read exactly `k` bytes from the stream. -/
def readN (k : Nat) (l : List Nat) : Option (List Nat × List Nat) :=
  if k ≤ l.length then some (l.take k, l.drop k) else none

/-- Source: `Encoder.WriteUint64` (fixed-width little-endian). -/
def encU64 (n : Nat) : List Nat := toBytesLE 8 n

/-- Source: `Decoder.ReadUint64`. -/
def decU64 (l : List Nat) : Option (Nat × List Nat) :=
  (readN 8 l).map fun p => (fromBytesLE p.1, p.2)

/-- A 32-byte identifier (Hash256/BlockID/Address), represented as a `Nat`
below `2 ^ 256` via the little-endian byte bijection. -/
def enc32 (n : Nat) : List Nat := toBytesLE 32 n

def dec32 (l : List Nat) : Option (Nat × List Nat) :=
  (readN 32 l).map fun p => (fromBytesLE p.1, p.2)

/-- Modelled from the spec: `types.Currency` is a 128-bit unsigned
integer encoded as 16 bytes. -/
def encCurrency (n : Nat) : List Nat := toBytesLE 16 n

def decCurrency (l : List Nat) : Option (Nat × List Nat) :=
  (readN 16 l).map fun p => (fromBytesLE p.1, p.2)

/-- Source: `Encoder.WriteTime` — i64 nanoseconds since the Unix epoch,
written as the u64 two's-complement representation. -/
def encTime (t : Int) : List Nat := encU64 (t % (2 ^ 64 : Int)).toNat

def decTime (l : List Nat) : Option (Int × List Nat) :=
  (decU64 l).map fun p =>
    (if p.1 < 2 ^ 63 then (p.1 : Int) else (p.1 : Int) - 2 ^ 64, p.2)

/-- Source: `Encoder.WriteBool` — a single `0x00` / `0x01` byte. -/
def encBool (b : Bool) : List Nat := [if b then 1 else 0]

def decBool (l : List Nat) : Option (Bool × List Nat) :=
  match l with
  | [] => none
  | b :: rest => if b = 0 then some (false, rest)
    else if b = 1 then some (true, rest) else none

/-- Source: `Encoder.WriteBytes` — u64 length followed by the raw bytes.
`WriteString` uses the same format. -/
def encBytes (l : List Nat) : List Nat := encU64 l.length ++ l

def decBytes (l : List Nat) : Option (List Nat × List Nat) :=
  (decU64 l).bind fun p => readN p.1 p.2

/-- Concatenation of the encodings of a list's members. -/
def encMany (enc : α → List Nat) : List α → List Nat
  | [] => []
  | x :: xs => enc x ++ encMany enc xs

/-- Source: the `WritePrefix` + per-element loop used by every collection:
u64 count followed by each member's encoding. -/
def encSeq (enc : α → List Nat) (xs : List α) : List Nat :=
  encU64 xs.length ++ encMany enc xs

/-- Decode exactly `k` consecutive members. -/
def decMany (dec : List Nat → Option (α × List Nat)) :
    Nat → List Nat → Option (List α × List Nat)
  | 0, l => some ([], l)
  | k + 1, l =>
    (dec l).bind fun p =>
      (decMany dec k p.2).bind fun q => some (p.1 :: q.1, q.2)

/-- Source: the `ReadPrefix` + per-element loop. -/
def decSeq (dec : List Nat → Option (α × List Nat)) (l : List Nat) :
    Option (List α × List Nat) :=
  (decU64 l).bind fun p => decMany dec p.1 p.2

/-! ## Currency arithmetic

Modelled from the spec: `types.Currency` (a 128-bit unsigned integer) is
not under src/.  A currency value is a `Nat`; operations wrap or clamp at
`2 ^ 128` exactly where the 128-bit representation would. -/

/-- Source: `types.Currency.SubWithUnderflow` — wrapping difference plus an
underflow flag. -/
def subWithUnderflow (a b : Nat) : Nat × Bool :=
  ((a + 2 ^ 128 - b) % 2 ^ 128, decide (a < b))

/-- Source: `types.Currency.Add` (128-bit addition). -/
def addCurrency (a b : Nat) : Nat := (a + b) % 2 ^ 128

/-- Source: `types.Currency.Mul64` (128-bit product). -/
def mul64 (a b : Nat) : Nat := (a * b) % 2 ^ 128

/-- Source: `types.Siacoins` — `n` siacoins is `n × 10 ^ 24` base units;
the argument is a u32 at every call site in the sources. -/
def siacoins (n : Nat) : Nat := n * 10 ^ 24

/-! ## Network parameters and State (source: `consensus/state.go`) -/

structure HardforkDevAddr where
  height : Nat
  oldAddress : Nat
  newAddress : Nat
deriving DecidableEq

structure HardforkTax where
  height : Nat
deriving DecidableEq

structure HardforkStorageProof where
  height : Nat
deriving DecidableEq

structure HardforkOak where
  height : Nat
  fixHeight : Nat
  genesisTimestamp : Int
deriving DecidableEq

structure HardforkASIC where
  height : Nat
  oakTime : Nat
  oakTarget : Nat
deriving DecidableEq

structure HardforkFoundation where
  height : Nat
  primaryAddress : Nat
  failsafeAddress : Nat
deriving DecidableEq

structure HardforkV2 where
  allowHeight : Nat
  requireHeight : Nat
deriving DecidableEq

/-- Source: `Network` — the fixed parameters of a Sia blockchain. -/
structure Network where
  name : List Nat
  initialCoinbase : Nat
  minimumCoinbase : Nat
  initialTarget : Nat
  hardforkDevAddr : HardforkDevAddr
  hardforkTax : HardforkTax
  hardforkStorageProof : HardforkStorageProof
  hardforkOak : HardforkOak
  hardforkASIC : HardforkASIC
  hardforkFoundation : HardforkFoundation
  hardforkV2 : HardforkV2
deriving DecidableEq

/-- Source: `types.ChainIndex` — a height / block-ID pair. -/
structure ChainIndex where
  height : Nat
  id : Nat
deriving DecidableEq

/-- Source: `State` — the chain state as of a particular block.  The Go
struct also carries a `Network` pointer, which is not encoded; here the
network is passed separately to each derivation. -/
structure State where
  index : ChainIndex
  prevTimestamps : List Int
  depth : Nat
  childTarget : Nat
  siafundPool : Nat
  oakTime : Nat
  oakTarget : Nat
  foundationPrimaryAddress : Nat
  foundationFailsafeAddress : Nat
  elements : Nat
  attestations : Nat
deriving DecidableEq

/-- Modelled from the spec: `intToTarget(maxTarget)` comes from a part of
the repository not under src/; its exact value bears on no claim. -/
def maxTargetRepr : Nat := 2 ^ 256 - 1

/-- Source: `Network.GenesisState` — the state the genesis block applies
to, with the `2 ^ 64 - 1` sentinel height. -/
def genesisState (n : Network) : State :=
  { index := { height := 2 ^ 64 - 1, id := 0 }
    prevTimestamps := List.replicate 11 0
    depth := maxTargetRepr
    childTarget := n.initialTarget
    siafundPool := 0
    oakTime := 0
    oakTarget := maxTargetRepr
    foundationPrimaryAddress := n.hardforkFoundation.primaryAddress
    foundationFailsafeAddress := n.hardforkFoundation.failsafeAddress
    elements := 0
    attestations := 0 }

/-- Source: `State.childHeight` — `Index.Height + 1` with u64 wraparound. -/
def childHeight (s : State) : Nat := (s.index.height + 1) % 2 ^ 64

/-- Source: `State.numTimestamps` (the array length is 11). -/
def numTimestamps (s : State) : Nat :=
  if childHeight s < 11 then childHeight s else 11

/-- Go slice indexing with an `int` index: negative indices panic. -/
def listGetSigned (l : List Int) (i : Int) : Option Int :=
  if i < 0 then none else l.get? i.toNat

/-- Source: `State.medianTimestamp`.  Go's `sort.Slice` is modelled by
insertion sort (all comparison sorts agree on a totally ordered slice);
an out-of-range slice index — a Go runtime panic — yields `none`. -/
def medianTimestamp (s : State) : Option Int :=
  let ts := List.insertionSort (fun a b : Int => a ≤ b)
    (s.prevTimestamps.take (numTimestamps s))
  if ts.length % 2 ≠ 0 then
    ts.get? (ts.length / 2)
  else
    match listGetSigned ts ((ts.length : Int) / 2 - 1), ts.get? (ts.length / 2) with
    | some l, some r => some (l + Int.tdiv (r - l) 2)
    | _, _ => none

/-- Source: `State.BlockReward` — initial coinbase minus
`Siacoins(uint32(childHeight))`, clamped below at the minimum coinbase.
Note the `uint32` truncation of the child height. -/
def blockReward (n : Network) (s : State) : Nat :=
  let p := subWithUnderflow n.initialCoinbase (siacoins (childHeight s % 2 ^ 32))
  if p.2 = true ∨ p.1 < n.minimumCoinbase then n.minimumCoinbase else p.1

/-- Source: `State.MaturityHeight` — `childHeight() + 144` (u64). -/
def maturityHeight (s : State) : Nat := (childHeight s + 144) % 2 ^ 64

/-- Source: `State.SiafundCount`. -/
def siafundCount : Nat := 10000

/-- Source: the `blocksPerYear` constant in `State.FoundationSubsidy`. -/
def blocksPerYear : Nat := 144 * 365

/-- Source: the `blocksPerMonth` constant in `State.FoundationSubsidy`. -/
def blocksPerMonth : Nat := blocksPerYear / 12

/-- Source: `types.SiacoinOutput` (value plus recipient address); modelled
from the spec for the fields the claims touch. -/
structure SiacoinOutput where
  value : Nat
  address : Nat
deriving DecidableEq

/-- Source: `State.FoundationSubsidy` — the Foundation subsidy output for
the child block; the address is set unconditionally, the value by cases on
the child height against the foundation hardfork height. -/
def foundationSubsidy (n : Network) (s : State) : SiacoinOutput :=
  let hardforkHeight := n.hardforkFoundation.height
  let value :=
    if childHeight s < hardforkHeight ∨
        (childHeight s - hardforkHeight) % blocksPerMonth ≠ 0 then 0
    else if childHeight s = hardforkHeight then
      mul64 (siacoins 30000) blocksPerYear
    else
      mul64 (siacoins 30000) blocksPerMonth
  { value := value, address := s.foundationPrimaryAddress }

/-- Source: `State.NonceFactor` — 1 before the ASIC hardfork, 1009 after. -/
def nonceFactor (n : Network) (s : State) : Nat :=
  if childHeight s < n.hardforkASIC.height then 1 else 1009

/-- Source: `State.MaxBlockWeight`. -/
def maxBlockWeight : Nat := 2000000

/-- Source: `State.replayPrefix` — the replay-protection byte string
selected by the parent height against the v2-allow, foundation and ASIC
hardfork heights. -/
def replayTag (n : Network) (s : State) : List Nat :=
  if n.hardforkV2.allowHeight ≤ s.index.height then [2]
  else if n.hardforkFoundation.height ≤ s.index.height then [1]
  else if n.hardforkASIC.height ≤ s.index.height then [0]
  else []

/-- Source: `types.FileContract`; modelled from the spec for the one field
`State.FileContractTax` reads. -/
structure FileContract where
  payout : Nat
deriving DecidableEq

/-- The exact rational value of the float64 constant `0.039`:
`5620492334958379 / 2 ^ 57` (nearest double to 39/1000). -/
def float039Num : Nat := 5620492334958379

def float039Den : Nat := 2 ^ 57

/-- Source: `State.FileContractTax` — payout times the tax rate (the
float-derived rational before the tax hardfork, 39/1000 after), rounded
down to a multiple of `SiafundCount`, truncated to 128 bits low-word
first as in the Go conversion. -/
def fileContractTax (n : Network) (s : State) (fc : FileContract) : Nat :=
  let i :=
    if childHeight s < n.hardforkTax.height then
      fc.payout * float039Num / float039Den
    else
      fc.payout * 39 / 1000
  let i2 := i - i % siafundCount
  i2 % 2 ^ 64 + 2 ^ 64 * (i2 / 2 ^ 64 % 2 ^ 64)

/-- Source: `types.V2FileContract`; modelled from the spec (§4.4 lists its
fields). -/
structure V2FileContract where
  filesize : Nat
  fileMerkleRoot : Nat
  proofHeight : Nat
  expirationHeight : Nat
  renterOutput : SiacoinOutput
  hostOutput : SiacoinOutput
  missedHostValue : Nat
  renterPublicKey : Nat
  hostPublicKey : Nat
  revisionNumber : Nat
deriving DecidableEq

/-- Source: `State.V2FileContractTax` — `(renter + host) / 25`, rounded
down to a multiple of `SiafundCount` via the two chained `bits.Div64`
steps (a 128-bit remainder computed high word first). -/
def v2FileContractTax (fc : V2FileContract) : Nat :=
  let sum := addCurrency fc.renterOutput.value fc.hostOutput.value
  let tax := sum / 25
  let r1 := tax / 2 ^ 64 % siafundCount
  let r2 := (r1 * 2 ^ 64 + tax % 2 ^ 64) % siafundCount
  tax - r2

/-! ## Storage proofs (source: `State.StorageProofLeafIndex`) -/

/-- Source: `binary.BigEndian.Uint64` applied to an 8-byte window. -/
def bigEndianU64 (l : List Nat) : Nat := l.foldl (fun a b => a * 256 + b) 0

/-- Modelled from the spec: `types.HashBytes` (BLAKE2b-256) is not under
src/.  This stand-in is an arbitrary fixed 32-byte digest function; every
theorem below about the leaf index holds for any digest whatsoever. -/
def hashBytes (l : List Nat) : List Nat :=
  (List.range 32).map fun i => l.foldl (fun a b => (a * 31 + b) % 256) (i * 7 % 256)

/-- The fold `r = (r << 64 + chunk) mod numLeaves` applied to the four
big-endian u64 chunks of a 32-byte seed (source: the `bits.Div64` loop;
its preconditions hold because each intermediate `r` is a remainder
modulo `numLeaves`). -/
def foldSeed (seed : List Nat) (numLeaves : Nat) : Nat :=
  ((List.range 4).map fun i => bigEndianU64 ((seed.drop (8 * i)).take 8)).foldl
    (fun r c => (r * 2 ^ 64 + c) % numLeaves) 0

/-- Source: `State.StorageProofLeafIndex`.  A `BlockID` or
`FileContractID` is a 32-byte value, represented as a `Nat` via the
little-endian byte bijection. -/
def storageProofLeafIndex (filesize : Nat) (windowID fcid : Nat) : Nat :=
  let numLeaves := filesize / 64 + (if filesize % 64 ≠ 0 then 1 else 0)
  if numLeaves = 0 then 0
  else
    let seed := hashBytes (toBytesLE 32 windowID ++ toBytesLE 32 fcid)
    foldSeed seed numLeaves

/-- Modelled from the spec's words, for comparison with the source
definition: "numLeaves = ceil(filesize / 64) … seed = BLAKE2b(windowID ||
fcid) … for each big-endian u64 chunk, r = (r << 64 + chunk) mod
numLeaves; the final r is the leaf index". -/
def specLeafIndex (filesize : Nat) (windowID fcid : Nat) : Nat :=
  foldSeed (hashBytes (toBytesLE 32 windowID ++ toBytesLE 32 fcid))
    ((filesize + 63) / 64)

/-! ## Supplements (source: `V1TransactionSupplement`, `V1BlockSupplement`) -/

/-- Source: `types.SiacoinElement`; modelled from the spec as a
codec-backed record (32-byte ID plus a currency value). -/
structure SiacoinElement where
  id : Nat
  value : Nat
deriving DecidableEq

/-- Source: `types.SiafundElement`; modelled from the spec as a
codec-backed record. -/
structure SiafundElement where
  id : Nat
  value : Nat
deriving DecidableEq

/-- Source: `types.FileContractElement`; modelled from the spec as a
codec-backed record. -/
structure FileContractElement where
  id : Nat
  payout : Nat
deriving DecidableEq

def encSiacoinElement (e : SiacoinElement) : List Nat :=
  enc32 e.id ++ encCurrency e.value

def decSiacoinElement (l : List Nat) : Option (SiacoinElement × List Nat) :=
  (dec32 l).bind fun p =>
    (decCurrency p.2).map fun q => ({ id := p.1, value := q.1 }, q.2)

def encSiafundElement (e : SiafundElement) : List Nat :=
  enc32 e.id ++ encCurrency e.value

def decSiafundElement (l : List Nat) : Option (SiafundElement × List Nat) :=
  (dec32 l).bind fun p =>
    (decCurrency p.2).map fun q => ({ id := p.1, value := q.1 }, q.2)

def encFileContractElement (e : FileContractElement) : List Nat :=
  enc32 e.id ++ encCurrency e.payout

def decFileContractElement (l : List Nat) :
    Option (FileContractElement × List Nat) :=
  (dec32 l).bind fun p =>
    (decCurrency p.2).map fun q => ({ id := p.1, payout := q.1 }, q.2)

/-- Source: `V1TransactionSupplement` — the side-channel elements of a v1
transaction.  `storageProofBlockIDs` must match `validFileContracts`
positionally. -/
structure V1TransactionSupplement where
  siacoinInputs : List SiacoinElement
  siafundInputs : List SiafundElement
  revisedFileContracts : List FileContractElement
  validFileContracts : List FileContractElement
  storageProofBlockIDs : List Nat
deriving DecidableEq

/-- Source: `V1TransactionSupplement.EncodeTo` — four length-prefixed
lists; `StorageProofBlockIDs` is not written. -/
def encV1TransactionSupplement (ts : V1TransactionSupplement) : List Nat :=
  encSeq encSiacoinElement ts.siacoinInputs ++
  encSeq encSiafundElement ts.siafundInputs ++
  encSeq encFileContractElement ts.revisedFileContracts ++
  encSeq encFileContractElement ts.validFileContracts

/-- Source: `V1TransactionSupplement.DecodeFrom` — reads the four lists;
`StorageProofBlockIDs` is left at its zero value (the empty list). -/
def decV1TransactionSupplement (l : List Nat) :
    Option (V1TransactionSupplement × List Nat) :=
  (decSeq decSiacoinElement l).bind fun a =>
    (decSeq decSiafundElement a.2).bind fun b =>
      (decSeq decFileContractElement b.2).bind fun c =>
        (decSeq decFileContractElement c.2).map fun d =>
          ({ siacoinInputs := a.1, siafundInputs := b.1,
             revisedFileContracts := c.1, validFileContracts := d.1,
             storageProofBlockIDs := [] }, d.2)

/-- Source: `V1BlockSupplement`. -/
structure V1BlockSupplement where
  transactions : List V1TransactionSupplement
  expiringFileContracts : List FileContractElement
deriving DecidableEq

/-- Source: `V1BlockSupplement.EncodeTo`. -/
def encV1BlockSupplement (bs : V1BlockSupplement) : List Nat :=
  encSeq encV1TransactionSupplement bs.transactions ++
  encSeq encFileContractElement bs.expiringFileContracts

/-- Source: `V1BlockSupplement.DecodeFrom`. -/
def decV1BlockSupplement (l : List Nat) :
    Option (V1BlockSupplement × List Nat) :=
  (decSeq decV1TransactionSupplement l).bind fun a =>
    (decSeq decFileContractElement a.2).map fun b =>
      ({ transactions := a.1, expiringFileContracts := b.1 }, b.2)

/-! ## State codec (source: `State.EncodeTo` / `State.DecodeFrom`) -/

/-- Source: `State.EncodeTo` — fields in declaration order, the eleven
previous timestamps written inline. -/
def encState (s : State) : List Nat :=
  encU64 s.index.height ++ enc32 s.index.id ++
  encMany encTime s.prevTimestamps ++
  enc32 s.depth ++ enc32 s.childTarget ++ encCurrency s.siafundPool ++
  encU64 s.oakTime ++ enc32 s.oakTarget ++
  enc32 s.foundationPrimaryAddress ++ enc32 s.foundationFailsafeAddress ++
  encU64 s.elements ++ encU64 s.attestations

/-- Source: `State.DecodeFrom`. -/
def decState (l : List Nat) : Option (State × List Nat) :=
  (decU64 l).bind fun h =>
    (dec32 h.2).bind fun id =>
      (decMany decTime 11 id.2).bind fun ts =>
        (dec32 ts.2).bind fun dep =>
          (dec32 dep.2).bind fun ct =>
            (decCurrency ct.2).bind fun sp =>
              (decU64 sp.2).bind fun ot =>
                (dec32 ot.2).bind fun otg =>
                  (dec32 otg.2).bind fun fpa =>
                    (dec32 fpa.2).bind fun ffa =>
                      (decU64 ffa.2).bind fun el =>
                        (decU64 el.2).map fun att =>
                          ({ index := { height := h.1, id := id.1 },
                             prevTimestamps := ts.1,
                             depth := dep.1, childTarget := ct.1,
                             siafundPool := sp.1,
                             oakTime := ot.1, oakTarget := otg.1,
                             foundationPrimaryAddress := fpa.1,
                             foundationFailsafeAddress := ffa.1,
                             elements := el.1,
                             attestations := att.1 }, att.2)

/-! ## RPC envelope (source: `net/rpc/rpc.go`) -/

/-- Source: `rpc.Error` — type specifier, opaque data, description. -/
structure RpcError where
  type : List Nat
  data : List Nat
  description : List Nat
deriving DecidableEq

/-- Source: `rpc.Error.EncodeTo` — 16 raw bytes, then `WriteBytes(Data)`,
then `WriteString(Description)`. -/
def encRpcError (e : RpcError) : List Nat :=
  e.type ++ encBytes e.data ++ encBytes e.description

/-- Source: `rpc.Error.DecodeFrom`. -/
def decRpcError (l : List Nat) : Option (RpcError × List Nat) :=
  (readN 16 l).bind fun t =>
    (decBytes t.2).bind fun d =>
      (decBytes d.2).map fun ds =>
        ({ type := t.1, data := d.1, description := ds.1 }, ds.2)

/-- Source: `NewSpecifier` — right-pad a string of at most 16 bytes with
zero bytes; longer strings panic (`none`). -/
def newSpecifier (str : List Nat) : Option (List Nat) :=
  if 16 < str.length then none
  else some (str ++ List.replicate (16 - str.length) 0)

/-- Source: `Specifier.EncodeTo` — 16 raw bytes. -/
def encSpecifier (s : List Nat) : List Nat := s

def trimLeadingZeros (l : List Nat) : List Nat := l.dropWhile (fun b => b = 0)

def trimTrailingZeros (l : List Nat) : List Nat :=
  (l.reverse.dropWhile (fun b => b = 0)).reverse

/-- Source: `Specifier.String` — `bytes.Trim(s[:], "\x00")`, which strips
zero bytes from both ends. -/
def specifierString (s : List Nat) : List Nat :=
  trimTrailingZeros (trimLeadingZeros s)

/-! ## Well-formedness: field values representable at their wire widths -/

/-- Valid i64 timestamp range. -/
abbrev wfTime (t : Int) : Prop := -(2 ^ 63) ≤ t ∧ t < 2 ^ 63

abbrev wfU64 (x : Nat) : Prop := x < 2 ^ 64

abbrev wf256 (x : Nat) : Prop := x < 2 ^ 256

abbrev wfCurrency (x : Nat) : Prop := x < 2 ^ 128

abbrev wfSiacoinElement (e : SiacoinElement) : Prop := wf256 e.id ∧ wfCurrency e.value

abbrev wfSiafundElement (e : SiafundElement) : Prop := wf256 e.id ∧ wfCurrency e.value

abbrev wfFileContractElement (e : FileContractElement) : Prop :=
  wf256 e.id ∧ wfCurrency e.payout

abbrev wfV1TransactionSupplement (ts : V1TransactionSupplement) : Prop :=
  (∀ e ∈ ts.siacoinInputs, wfSiacoinElement e) ∧
  (∀ e ∈ ts.siafundInputs, wfSiafundElement e) ∧
  (∀ e ∈ ts.revisedFileContracts, wfFileContractElement e) ∧
  (∀ e ∈ ts.validFileContracts, wfFileContractElement e) ∧
  ts.siacoinInputs.length < 2 ^ 64 ∧
  ts.siafundInputs.length < 2 ^ 64 ∧
  ts.revisedFileContracts.length < 2 ^ 64 ∧
  ts.validFileContracts.length < 2 ^ 64

abbrev wfV1BlockSupplement (bs : V1BlockSupplement) : Prop :=
  (∀ ts ∈ bs.transactions, wfV1TransactionSupplement ts) ∧
  (∀ e ∈ bs.expiringFileContracts, wfFileContractElement e) ∧
  bs.transactions.length < 2 ^ 64 ∧
  bs.expiringFileContracts.length < 2 ^ 64

abbrev wfState (s : State) : Prop :=
  wfU64 s.index.height ∧ wf256 s.index.id ∧
  s.prevTimestamps.length = 11 ∧ (∀ t ∈ s.prevTimestamps, wfTime t) ∧
  wf256 s.depth ∧ wf256 s.childTarget ∧ wfCurrency s.siafundPool ∧
  wfU64 s.oakTime ∧ wf256 s.oakTarget ∧
  wf256 s.foundationPrimaryAddress ∧ wf256 s.foundationFailsafeAddress ∧
  wfU64 s.elements ∧ wfU64 s.attestations

abbrev wfRpcError (e : RpcError) : Prop :=
  e.type.length = 16 ∧ e.data.length < 2 ^ 64 ∧ e.description.length < 2 ^ 64

/-- The decoded image of a supplement: `StorageProofBlockIDs` is not on
the wire, so decoding restores it as the empty list. -/
def clearStorageProofBlockIDs (ts : V1TransactionSupplement) :
    V1TransactionSupplement :=
  { ts with storageProofBlockIDs := [] }

/-- A concrete supplement whose `storageProofBlockIDs` list is non-empty:
the lists of elements are empty, the supplement lists one storage-proof
window block ID. -/
def ctexSupplement : V1TransactionSupplement :=
  { siacoinInputs := [], siafundInputs := [], revisedFileContracts := [],
    validFileContracts := [], storageProofBlockIDs := [1] }

/-- A fully concrete state for witnessing the round-trip theorem. -/
def sampleState : State :=
  { index := { height := 5, id := 9 }
    prevTimestamps := [3, 1, 4, 1, 5, 9, 2, 6, -5, 3, 0]
    depth := 70
    childTarget := 71
    siafundPool := 72
    oakTime := 73
    oakTarget := 74
    foundationPrimaryAddress := 75
    foundationFailsafeAddress := 76
    elements := 77
    attestations := 78 }

/-! ## RPC envelope operations (source: `net/rpc/rpc.go`) -/

/-- Source: a Go `error` value handed to `WriteResponse`: either an
`*rpc.Error`, or any other error contributing only its `Error()` string. -/
inductive GoError where
  | rpcErr (e : RpcError)
  | plain (msg : List Nat)
deriving DecidableEq

/-- The `Error()` string of a Go error value. -/
def errString : GoError → List Nat
  | .rpcErr e => e.description
  | .plain m => m

/-- Source: `WriteRequest` — the 16-byte request ID followed by the
optional request body. -/
def writeRequest (id : List Nat) (req : Option (List Nat)) : List Nat :=
  id ++ req.getD []

/-- Source: `ReadID` — `ReadObject` on a specifier with a 16-byte budget;
returns the ID and the unconsumed stream. -/
def readID (conn : List Nat) : Option (List Nat × List Nat) :=
  readN 16 conn

/-- Source: `ReadRequest` / `ReadObject` — decode the request body from at
most `maxLen` bytes of the stream. -/
def readRequest (dec : List Nat → Option (α × List Nat)) (conn : List Nat)
    (maxLen : Nat) : Option α :=
  (dec (conn.take maxLen)).map fun p => p.1

/-- Source: `WriteResponse` — one boolean, then either the error (a
non-`rpc.Error` is wrapped with a zero type specifier, no data and its
`Error()` string as description) or the response body. -/
def writeResponseBytes (resp : Option (List Nat)) (err : Option GoError) :
    List Nat :=
  match err with
  | some (.rpcErr e) => encBool true ++ encRpcError e
  | some (.plain m) => encBool true ++
      encRpcError { type := List.replicate 16 0, data := [], description := m }
  | none => encBool false ++ resp.getD []

/-- Byte string of "response error: ", the `fmt.Errorf` wrapping that
`ReadResponse` applies to a wire error. -/
def respErrTag : List Nat :=
  [114, 101, 115, 112, 111, 110, 115, 101, 32, 101, 114, 114, 111, 114, 58, 32]

/-- Byte string of "failed to read message: ", the `fmt.Errorf` wrapping
that `ReadResponse` applies to a decode failure (the underlying decoder
message is not modelled). -/
def failedReadTag : List Nat :=
  [102, 97, 105, 108, 101, 100, 32, 116, 111, 32, 114, 101, 97, 100, 32,
   109, 101, 115, 115, 97, 103, 101, 58, 32]

/-- Source: `ReadResponse` — read the boolean; a wire error is returned as
"response error: " followed by its description; otherwise the body is
decoded from the remaining budgeted bytes. -/
def readResponse (dec : List Nat → Option (α × List Nat)) (conn : List Nat)
    (maxLen : Nat) : Except (List Nat) α :=
  (decBool (conn.take maxLen)).elim (Except.error failedReadTag) fun p =>
    cond p.1
      ((decRpcError p.2).elim (Except.error failedReadTag) fun q =>
        Except.error (respErrTag ++ q.1.description))
      ((dec p.2).elim (Except.error failedReadTag) fun q => Except.ok q.1)

/-! ## Concrete networks and states for the end-to-end scenarios -/

/-- Modelled from the spec: the main network (`Mainnet()` is not under
src/).  Only the initial and minimum coinbase bear on the theorems below;
the hardfork heights are the historical mainnet ones and the addresses
are placeholders. -/
def mainnet : Network :=
  { name := [109, 97, 105, 110, 110, 101, 116]
    initialCoinbase := siacoins 300000
    minimumCoinbase := siacoins 30000
    initialTarget := 32
    hardforkDevAddr := { height := 10000, oldAddress := 1, newAddress := 2 }
    hardforkTax := { height := 21000 }
    hardforkStorageProof := { height := 100000 }
    hardforkOak :=
      { height := 135000, fixHeight := 139000, genesisTimestamp := 1433600000000000000 }
    hardforkASIC := { height := 179000, oakTime := 0, oakTarget := 5 }
    hardforkFoundation :=
      { height := 298000, primaryAddress := 3, failsafeAddress := 4 }
    hardforkV2 := { allowHeight := 500000, requireHeight := 510000 } }

/-- A test network whose hardforks below the foundation fork all sit at
height 0, with the foundation fork at height 10 and the v2 hardfork at
height 1000000: heights 10 and 1000000 are adjacent hardfork heights. -/
def cNet : Network :=
  { name := []
    initialCoinbase := siacoins 300000
    minimumCoinbase := siacoins 30000
    initialTarget := 0
    hardforkDevAddr := { height := 0, oldAddress := 0, newAddress := 0 }
    hardforkTax := { height := 0 }
    hardforkStorageProof := { height := 0 }
    hardforkOak := { height := 0, fixHeight := 0, genesisTimestamp := 0 }
    hardforkASIC := { height := 0, oakTime := 0, oakTarget := 0 }
    hardforkFoundation :=
      { height := 10, primaryAddress := 7, failsafeAddress := 8 }
    hardforkV2 := { allowHeight := 1000000, requireHeight := 1000000 } }

/-- A state at the given parent height, with every other field zeroed. -/
def stateAt (h : Nat) : State :=
  { index := { height := h, id := 0 }
    prevTimestamps := List.replicate 11 0
    depth := 0
    childTarget := 0
    siafundPool := 0
    oakTime := 0
    oakTarget := 0
    foundationPrimaryAddress := 7
    foundationFailsafeAddress := 8
    elements := 0
    attestations := 0 }

/-- Every height at which some hardfork descriptor of the network fires. -/
def hardforkHeights (n : Network) : List Nat :=
  [n.hardforkDevAddr.height, n.hardforkTax.height,
   n.hardforkStorageProof.height, n.hardforkOak.height,
   n.hardforkOak.fixHeight, n.hardforkASIC.height,
   n.hardforkFoundation.height, n.hardforkV2.allowHeight,
   n.hardforkV2.requireHeight]

/-! ## THEOREMS -/

/-! ### Round-trip lemmas for the primitives -/

theorem length_toBytesLE (k n : Nat) : (toBytesLE k n).length = k := by
  induction k generalizing n with
  | zero => rfl
  | succ k ih => simp [toBytesLE, ih]

theorem fromBytesLE_toBytesLE (k n : Nat) :
    fromBytesLE (toBytesLE k n) = n % 256 ^ k := by
  induction k generalizing n with
  | zero => simp [toBytesLE, fromBytesLE, Nat.mod_one]
  | succ k ih =>
    simp only [toBytesLE, fromBytesLE, ih]
    rw [pow_succ, mul_comm (256 ^ k) 256, Nat.mod_mul]

theorem readN_append (xs r : List Nat) :
    readN xs.length (xs ++ r) = some (xs, r) := by
  unfold readN
  rw [if_pos (by simp)]
  rw [List.take_left, List.drop_left]

theorem decFixedLE (k n : Nat) (r : List Nat) (h : n < 256 ^ k) :
    Option.map (fun p => (fromBytesLE p.1, p.2)) (readN k (toBytesLE k n ++ r)) =
      some (n, r) := by
  have hr := readN_append (toBytesLE k n) r
  rw [length_toBytesLE] at hr
  rw [hr]
  simp [fromBytesLE_toBytesLE, Nat.mod_eq_of_lt h]

theorem decU64_enc (n : Nat) (r : List Nat) (h : n < 2 ^ 64) :
    decU64 (encU64 n ++ r) = some (n, r) :=
  decFixedLE 8 n r (by norm_num at h ⊢; omega)

theorem dec32_enc (n : Nat) (r : List Nat) (h : n < 2 ^ 256) :
    dec32 (enc32 n ++ r) = some (n, r) :=
  decFixedLE 32 n r (by norm_num at h ⊢; omega)

theorem decCurrency_enc (n : Nat) (r : List Nat) (h : n < 2 ^ 128) :
    decCurrency (encCurrency n ++ r) = some (n, r) :=
  decFixedLE 16 n r (by norm_num at h ⊢; omega)

theorem decTime_enc (t : Int) (r : List Nat) (h : wfTime t) :
    decTime (encTime t ++ r) = some (t, r) := by
  obtain ⟨h1, h2⟩ := h
  have hmod : (0 : Int) ≤ t % (2 ^ 64 : Int) := Int.emod_nonneg t (by norm_num)
  have hlt : t % (2 ^ 64 : Int) < 2 ^ 64 := Int.emod_lt_of_pos t (by norm_num)
  have hemod : t % (2 ^ 64 : Int) = t ∨ t % (2 ^ 64 : Int) = t + 2 ^ 64 := by
    omega
  unfold decTime encTime
  rw [decU64_enc _ _ (by omega)]
  simp only [Option.map_some']
  have hval : (if (t % (2 ^ 64 : Int)).toNat < 2 ^ 63 then
      (((t % (2 ^ 64 : Int)).toNat : Nat) : Int)
      else (((t % (2 ^ 64 : Int)).toNat : Nat) : Int) - 2 ^ 64) = t := by
    split <;> omega
  rw [hval]

theorem decBool_enc (b : Bool) (r : List Nat) :
    decBool (encBool b ++ r) = some (b, r) := by
  cases b <;> simp [encBool, decBool]

theorem decBytes_enc (l r : List Nat) (h : l.length < 2 ^ 64) :
    decBytes (encBytes l ++ r) = some (l, r) := by
  unfold decBytes encBytes
  rw [List.append_assoc, decU64_enc _ _ h]
  simp only [Option.some_bind]
  exact readN_append l r

theorem decMany_enc {α : Type} (enc : α → List Nat)
    (dec : List Nat → Option (α × List Nat)) (wf : α → Prop)
    (H : ∀ x r, wf x → dec (enc x ++ r) = some (x, r)) :
    ∀ (xs : List α) (r : List Nat), (∀ x ∈ xs, wf x) →
      decMany dec xs.length (encMany enc xs ++ r) = some (xs, r) := by
  intro xs
  induction xs with
  | nil => intro r _; simp [encMany, decMany]
  | cons x xs ih =>
    intro r hwf
    simp only [encMany, List.length_cons, decMany, List.append_assoc]
    rw [H x _ (hwf x (by simp))]
    rw [Option.some_bind]
    rw [ih r (fun y hy => hwf y (by simp [hy]))]
    rfl

theorem decSeq_enc {α : Type} (enc : α → List Nat)
    (dec : List Nat → Option (α × List Nat)) (wf : α → Prop)
    (H : ∀ x r, wf x → dec (enc x ++ r) = some (x, r))
    (xs : List α) (r : List Nat) (hwf : ∀ x ∈ xs, wf x)
    (hlen : xs.length < 2 ^ 64) :
    decSeq dec (encSeq enc xs ++ r) = some (xs, r) := by
  unfold decSeq encSeq
  rw [List.append_assoc, decU64_enc _ _ hlen]
  rw [Option.some_bind]
  exact decMany_enc enc dec wf H xs r hwf

/-! ## Round-trip proofs for the composite codecs -/

theorem decSiacoinElement_enc (e : SiacoinElement) (r : List Nat)
    (h : wfSiacoinElement e) :
    decSiacoinElement (encSiacoinElement e ++ r) = some (e, r) := by
  obtain ⟨h1, h2⟩ := h
  unfold decSiacoinElement encSiacoinElement
  rw [List.append_assoc, dec32_enc _ _ h1, Option.some_bind,
    decCurrency_enc _ _ h2]
  rfl

theorem decSiafundElement_enc (e : SiafundElement) (r : List Nat)
    (h : wfSiafundElement e) :
    decSiafundElement (encSiafundElement e ++ r) = some (e, r) := by
  obtain ⟨h1, h2⟩ := h
  unfold decSiafundElement encSiafundElement
  rw [List.append_assoc, dec32_enc _ _ h1, Option.some_bind,
    decCurrency_enc _ _ h2]
  rfl

theorem decFileContractElement_enc (e : FileContractElement) (r : List Nat)
    (h : wfFileContractElement e) :
    decFileContractElement (encFileContractElement e ++ r) = some (e, r) := by
  obtain ⟨h1, h2⟩ := h
  unfold decFileContractElement encFileContractElement
  rw [List.append_assoc, dec32_enc _ _ h1, Option.some_bind,
    decCurrency_enc _ _ h2]
  rfl

theorem decV1TransactionSupplement_enc (ts : V1TransactionSupplement)
    (r : List Nat) (h : wfV1TransactionSupplement ts) :
    decV1TransactionSupplement (encV1TransactionSupplement ts ++ r) =
      some (clearStorageProofBlockIDs ts, r) := by
  obtain ⟨h1, h2, h3, h4, h5, h6, h7, h8⟩ := h
  unfold decV1TransactionSupplement encV1TransactionSupplement
  simp only [List.append_assoc]
  rw [decSeq_enc encSiacoinElement decSiacoinElement wfSiacoinElement
      decSiacoinElement_enc _ _ h1 h5, Option.some_bind]
  rw [decSeq_enc encSiafundElement decSiafundElement wfSiafundElement
      decSiafundElement_enc _ _ h2 h6, Option.some_bind]
  rw [decSeq_enc encFileContractElement decFileContractElement
      wfFileContractElement decFileContractElement_enc _ _ h3 h7,
    Option.some_bind]
  rw [decSeq_enc encFileContractElement decFileContractElement
      wfFileContractElement decFileContractElement_enc _ _ h4 h8]
  rfl

/-- Variant of `decMany_enc` where each member decodes to its image under
a normalisation map `f` (needed because supplements do not round-trip
identically). -/
theorem decMany_enc_map {α : Type} (enc : α → List Nat)
    (dec : List Nat → Option (α × List Nat)) (wf : α → Prop) (f : α → α)
    (H : ∀ x r, wf x → dec (enc x ++ r) = some (f x, r)) :
    ∀ (xs : List α) (r : List Nat), (∀ x ∈ xs, wf x) →
      decMany dec xs.length (encMany enc xs ++ r) = some (xs.map f, r) := by
  intro xs
  induction xs with
  | nil => intro r _; simp [encMany, decMany]
  | cons x xs ih =>
    intro r hwf
    simp only [encMany, List.length_cons, decMany, List.append_assoc]
    rw [H x _ (hwf x (by simp))]
    rw [Option.some_bind]
    rw [ih r (fun y hy => hwf y (by simp [hy]))]
    rfl

theorem decSeq_enc_map {α : Type} (enc : α → List Nat)
    (dec : List Nat → Option (α × List Nat)) (wf : α → Prop) (f : α → α)
    (H : ∀ x r, wf x → dec (enc x ++ r) = some (f x, r))
    (xs : List α) (r : List Nat) (hwf : ∀ x ∈ xs, wf x)
    (hlen : xs.length < 2 ^ 64) :
    decSeq dec (encSeq enc xs ++ r) = some (xs.map f, r) := by
  unfold decSeq encSeq
  rw [List.append_assoc, decU64_enc _ _ hlen]
  rw [Option.some_bind]
  exact decMany_enc_map enc dec wf f H xs r hwf

theorem decV1BlockSupplement_enc (bs : V1BlockSupplement) (r : List Nat)
    (h : wfV1BlockSupplement bs) :
    decV1BlockSupplement (encV1BlockSupplement bs ++ r) =
      some ({ transactions := bs.transactions.map clearStorageProofBlockIDs,
              expiringFileContracts := bs.expiringFileContracts }, r) := by
  obtain ⟨h1, h2, h3, h4⟩ := h
  unfold decV1BlockSupplement encV1BlockSupplement
  simp only [List.append_assoc]
  rw [decSeq_enc_map encV1TransactionSupplement decV1TransactionSupplement
      wfV1TransactionSupplement clearStorageProofBlockIDs
      decV1TransactionSupplement_enc _ _ h1 h3, Option.some_bind]
  rw [decSeq_enc encFileContractElement decFileContractElement
      wfFileContractElement decFileContractElement_enc _ _ h2 h4]
  rfl

theorem decState_enc (s : State) (r : List Nat) (h : wfState s) :
    decState (encState s ++ r) = some (s, r) := by
  obtain ⟨hh, hid, hts, htw, hd, hct, hsp, hot, hotg, hfpa, hffa, hel, hatt⟩ := h
  unfold decState encState
  simp only [List.append_assoc]
  rw [decU64_enc _ _ hh, Option.some_bind]
  rw [dec32_enc _ _ hid, Option.some_bind]
  rw [show (11 : Nat) = s.prevTimestamps.length from hts.symm]
  rw [decMany_enc encTime decTime wfTime decTime_enc _ _ htw, Option.some_bind]
  rw [dec32_enc _ _ hd, Option.some_bind]
  rw [dec32_enc _ _ hct, Option.some_bind]
  rw [decCurrency_enc _ _ hsp, Option.some_bind]
  rw [decU64_enc _ _ hot, Option.some_bind]
  rw [dec32_enc _ _ hotg, Option.some_bind]
  rw [dec32_enc _ _ hfpa, Option.some_bind]
  rw [dec32_enc _ _ hffa, Option.some_bind]
  rw [decU64_enc _ _ hel, Option.some_bind]
  rw [decU64_enc _ _ hatt]
  rfl

theorem decRpcError_enc (e : RpcError) (r : List Nat) (h : wfRpcError e) :
    decRpcError (encRpcError e ++ r) = some (e, r) := by
  obtain ⟨h1, h2, h3⟩ := h
  unfold decRpcError encRpcError
  simp only [List.append_assoc]
  rw [show (16 : Nat) = e.type.length from h1.symm, readN_append,
    Option.some_bind]
  rw [decBytes_enc _ _ h2, Option.some_bind]
  rw [decBytes_enc _ _ h3]
  rfl

/-! ## Claim C1: codec round-trip -/

/-- Claim C1 as stated is false: a `V1TransactionSupplement` whose
`StorageProofBlockIDs` list is non-empty does not survive the
encode/decode round trip, because `EncodeTo` omits that field and
`DecodeFrom` leaves it empty. -/
theorem claim1_counterexample :
    decV1TransactionSupplement (encV1TransactionSupplement ctexSupplement) ≠
      some (ctexSupplement, []) := by decide

/-- Claim C1 (amended): decoding the canonical encoding restores `State`
and `rpc.Error` values exactly; a `V1TransactionSupplement` is restored
with its `StorageProofBlockIDs` field replaced by the empty list (hence
exactly when that list was empty), and a `V1BlockSupplement` is restored
with every member supplement so normalised. -/
theorem claim1_codec_round_trip :
    (∀ (s : State) (r : List Nat), wfState s →
      decState (encState s ++ r) = some (s, r)) ∧
    (∀ (e : RpcError) (r : List Nat), wfRpcError e →
      decRpcError (encRpcError e ++ r) = some (e, r)) ∧
    (∀ (ts : V1TransactionSupplement) (r : List Nat),
      wfV1TransactionSupplement ts →
      decV1TransactionSupplement (encV1TransactionSupplement ts ++ r) =
        some (clearStorageProofBlockIDs ts, r)) ∧
    (∀ (bs : V1BlockSupplement) (r : List Nat), wfV1BlockSupplement bs →
      decV1BlockSupplement (encV1BlockSupplement bs ++ r) =
        some ({ transactions := bs.transactions.map clearStorageProofBlockIDs,
                expiringFileContracts := bs.expiringFileContracts }, r)) :=
  ⟨decState_enc, decRpcError_enc, decV1TransactionSupplement_enc,
    decV1BlockSupplement_enc⟩

/-- Witness for claim C1 at a concrete state. -/
theorem claim1_codec_round_trip_witness :
    wfState sampleState ∧
    decState (encState sampleState ++ []) = some (sampleState, []) :=
  ⟨by decide, claim1_codec_round_trip.1 sampleState [] (by decide)⟩


/-! ## Claim C2: the genesis state over the main network -/

/-- Claim C2 as stated is false at its own concrete input: at the genesis
state the timestamp window is empty, so `medianTimestamp` hits the
`ts[len(ts)/2-1]` access with index `-1` — a Go runtime panic (`none` in
this model) — instead of returning the zero time. -/
theorem claim2_counterexample :
    medianTimestamp (genesisState mainnet) ≠ some 0 := by decide

/-- Claim C2 (amended): over the main network the genesis state has
`childHeight() = 0`, `BlockReward() = InitialCoinbase`,
`MaturityHeight() = 144`; `medianTimestamp()` does not return the zero
time but panics on an out-of-range index (modelled as `none`). -/
theorem claim2_genesis_mainnet :
    childHeight (genesisState mainnet) = 0 ∧
    blockReward mainnet (genesisState mainnet) = mainnet.initialCoinbase ∧
    maturityHeight (genesisState mainnet) = 144 ∧
    medianTimestamp (genesisState mainnet) = none := by decide

/-! ## Claim C3: constancy between adjacent hardfork heights -/

/-- Claim C3 as stated is false: over `cNet` the heights 10 and 4389 both
lie in the interval `[10, 1000000)` between the two adjacent hardfork
heights 10 and 1000000, yet `FoundationSubsidy` is zero at the first and
a full monthly subsidy at the second. -/
theorem claim3_counterexample :
    hardforkHeights cNet = [0, 0, 0, 0, 0, 0, 10, 1000000, 1000000] ∧
    (stateAt 10).index.height = 10 ∧ (stateAt 4389).index.height = 4389 ∧
    (10 : Nat) ≤ 10 ∧ (10 : Nat) < 1000000 ∧
    (10 : Nat) ≤ 4389 ∧ (4389 : Nat) < 1000000 ∧
    (foundationSubsidy cNet (stateAt 10)).value = 0 ∧
    (foundationSubsidy cNet (stateAt 4389)).value = siacoins 30000 * 4380 ∧
    (foundationSubsidy cNet (stateAt 10)).value ≠
      (foundationSubsidy cNet (stateAt 4389)).value := by
  refine ⟨rfl, rfl, rfl, by decide, by decide, by decide, by decide, ?_, ?_, ?_⟩
  · decide
  · decide
  · decide

/-- Claim C3 (amended): `NonceFactor` and `FileContractTax` depend on the
height only through the position of the child height relative to the ASIC
(resp. tax) hardfork height, and `replayPrefix` only through the position
of the parent height relative to the v2-allow, foundation and ASIC
hardfork heights — so each is constant between consecutive switch points;
`FoundationSubsidy` is excluded, being periodic above the foundation
hardfork height. -/
theorem claim3_hardfork_intervals :
    (∀ (n : Network) (s1 s2 : State),
      ((childHeight s1 < n.hardforkASIC.height) ↔
        (childHeight s2 < n.hardforkASIC.height)) →
      nonceFactor n s1 = nonceFactor n s2) ∧
    (∀ (n : Network) (s1 s2 : State),
      ((n.hardforkV2.allowHeight ≤ s1.index.height) ↔
        (n.hardforkV2.allowHeight ≤ s2.index.height)) →
      ((n.hardforkFoundation.height ≤ s1.index.height) ↔
        (n.hardforkFoundation.height ≤ s2.index.height)) →
      ((n.hardforkASIC.height ≤ s1.index.height) ↔
        (n.hardforkASIC.height ≤ s2.index.height)) →
      replayTag n s1 = replayTag n s2) ∧
    (∀ (n : Network) (s1 s2 : State) (fc : FileContract),
      ((childHeight s1 < n.hardforkTax.height) ↔
        (childHeight s2 < n.hardforkTax.height)) →
      fileContractTax n s1 fc = fileContractTax n s2 fc) := by
  refine ⟨?_, ?_, ?_⟩
  · intro n s1 s2 hiff
    unfold nonceFactor
    by_cases h : childHeight s1 < n.hardforkASIC.height
    · rw [if_pos h, if_pos (hiff.mp h)]
    · rw [if_neg h, if_neg (fun hc => h (hiff.mpr hc))]
  · intro n s1 s2 h1 h2 h3
    unfold replayTag
    by_cases hv : n.hardforkV2.allowHeight ≤ s1.index.height
    · rw [if_pos hv, if_pos (h1.mp hv)]
    · rw [if_neg hv, if_neg (fun hc => hv (h1.mpr hc))]
      by_cases hf : n.hardforkFoundation.height ≤ s1.index.height
      · rw [if_pos hf, if_pos (h2.mp hf)]
      · rw [if_neg hf, if_neg (fun hc => hf (h2.mpr hc))]
        by_cases ha : n.hardforkASIC.height ≤ s1.index.height
        · rw [if_pos ha, if_pos (h3.mp ha)]
        · rw [if_neg ha, if_neg (fun hc => ha (h3.mpr hc))]
  · intro n s1 s2 fc hiff
    unfold fileContractTax
    by_cases h : childHeight s1 < n.hardforkTax.height
    · rw [if_pos h, if_pos (hiff.mp h)]
    · rw [if_neg h, if_neg (fun hc => h (hiff.mpr hc))]

/-- Witness for claim C3 at concrete heights 3 and 4 over the test network. -/
theorem claim3_hardfork_intervals_witness :
    nonceFactor cNet (stateAt 3) = nonceFactor cNet (stateAt 4) ∧
    replayTag cNet (stateAt 3) = replayTag cNet (stateAt 4) ∧
    fileContractTax cNet (stateAt 3) { payout := 123456789 } =
      fileContractTax cNet (stateAt 4) { payout := 123456789 } :=
  ⟨claim3_hardfork_intervals.1 cNet (stateAt 3) (stateAt 4) (by decide),
   claim3_hardfork_intervals.2.1 cNet (stateAt 3) (stateAt 4)
     (by decide) (by decide) (by decide),
   claim3_hardfork_intervals.2.2 cNet (stateAt 3) (stateAt 4)
     { payout := 123456789 } (by decide)⟩

/-! ## Claim C4: block reward formula and floor -/

/-- Claim C4 as stated is false at child height `2 ^ 32`: the claimed
formula underflows (`2 ^ 32` siacoins exceed the initial coinbase), so it
prescribes the minimum coinbase, but `BlockReward` truncates the child
height through `uint32` and subtracts zero, returning the initial
coinbase. -/
theorem claim4_counterexample :
    childHeight (stateAt (2 ^ 32 - 1)) = 2 ^ 32 ∧
    mainnet.initialCoinbase < siacoins (childHeight (stateAt (2 ^ 32 - 1))) ∧
    blockReward mainnet (stateAt (2 ^ 32 - 1)) = mainnet.initialCoinbase ∧
    blockReward mainnet (stateAt (2 ^ 32 - 1)) ≠ mainnet.minimumCoinbase := by
  refine ⟨by decide, by decide, by decide, by decide⟩

/-- Claim C4 (amended): `BlockReward` equals the initial coinbase minus
`(childHeight mod 2 ^ 32)` siacoins — the `uint32` truncation — clamped
below at the minimum coinbase (with underflow yielding the minimum), and
the reward never falls below `MinimumCoinbase`. -/
theorem claim4_block_reward :
    (∀ (n : Network) (s : State), n.initialCoinbase < 2 ^ 128 →
      blockReward n s =
        if siacoins (childHeight s % 2 ^ 32) ≤ n.initialCoinbase ∧
            n.minimumCoinbase ≤
              n.initialCoinbase - siacoins (childHeight s % 2 ^ 32)
        then n.initialCoinbase - siacoins (childHeight s % 2 ^ 32)
        else n.minimumCoinbase) ∧
    (∀ (n : Network) (s : State), n.minimumCoinbase ≤ blockReward n s) := by
  constructor
  · intro n s h
    simp only [blockReward, subWithUnderflow, siacoins, decide_eq_true_eq]
    split_ifs <;> omega
  · intro n s
    simp only [blockReward, subWithUnderflow, siacoins, decide_eq_true_eq]
    split_ifs <;> omega

/-- Witness for claim C4 over the main network at parent height 5. -/
theorem claim4_block_reward_witness :
    mainnet.initialCoinbase < 2 ^ 128 ∧
    blockReward mainnet (stateAt 5) =
      (if siacoins (childHeight (stateAt 5) % 2 ^ 32) ≤ mainnet.initialCoinbase ∧
          mainnet.minimumCoinbase ≤
            mainnet.initialCoinbase - siacoins (childHeight (stateAt 5) % 2 ^ 32)
        then mainnet.initialCoinbase - siacoins (childHeight (stateAt 5) % 2 ^ 32)
        else mainnet.minimumCoinbase) ∧
    mainnet.minimumCoinbase ≤ blockReward mainnet (stateAt 5) :=
  ⟨by decide, claim4_block_reward.1 mainnet (stateAt 5) (by decide),
    claim4_block_reward.2 mainnet (stateAt 5)⟩

/-! ## Claim C5: the foundation subsidy schedule -/

/-- Claim C5: `FoundationSubsidy` is zero before the foundation hardfork
height, one year's subsidy (with the primary address) exactly at it, one
month's subsidy at later heights whose offset is a multiple of
`blocksPerMonth = (144 × 365)/12`, and zero otherwise. -/
theorem claim5_foundation_subsidy :
    ∀ (n : Network) (s : State),
      (childHeight s < n.hardforkFoundation.height →
        (foundationSubsidy n s).value = 0) ∧
      (childHeight s = n.hardforkFoundation.height →
        (foundationSubsidy n s).value = siacoins 30000 * (144 * 365) ∧
        (foundationSubsidy n s).address = s.foundationPrimaryAddress) ∧
      (n.hardforkFoundation.height < childHeight s ∧
          (childHeight s - n.hardforkFoundation.height) % ((144 * 365) / 12) = 0 →
        (foundationSubsidy n s).value = siacoins 30000 * ((144 * 365) / 12)) ∧
      (n.hardforkFoundation.height < childHeight s ∧
          (childHeight s - n.hardforkFoundation.height) % ((144 * 365) / 12) ≠ 0 →
        (foundationSubsidy n s).value = 0) := by
  intro n s
  refine ⟨fun h => ?_, fun h => ?_, fun h => ?_, fun h => ?_⟩
  · simp [foundationSubsidy, h]
  · have h1 : ¬(childHeight s < n.hardforkFoundation.height ∨
        (childHeight s - n.hardforkFoundation.height) % blocksPerMonth ≠ 0) := by
      simp only [blocksPerMonth, blocksPerYear]
      omega
    refine ⟨?_, rfl⟩
    simp only [foundationSubsidy]
    rw [if_neg h1, if_pos h]
    decide
  · have h1 : ¬(childHeight s < n.hardforkFoundation.height ∨
        (childHeight s - n.hardforkFoundation.height) % blocksPerMonth ≠ 0) := by
      simp only [blocksPerMonth, blocksPerYear]
      omega
    have h2 : ¬(childHeight s = n.hardforkFoundation.height) := by omega
    simp only [foundationSubsidy]
    rw [if_neg h1, if_neg h2]
    decide
  · have h1 : childHeight s < n.hardforkFoundation.height ∨
        (childHeight s - n.hardforkFoundation.height) % blocksPerMonth ≠ 0 := by
      simp only [blocksPerMonth, blocksPerYear]
      omega
    simp [foundationSubsidy, if_pos h1]

/-- Witness for claim C5 at concrete heights around the foundation fork
of the test network. -/
theorem claim5_foundation_subsidy_witness :
    (foundationSubsidy cNet (stateAt 5)).value = 0 ∧
    (foundationSubsidy cNet (stateAt 9)).value = siacoins 30000 * (144 * 365) ∧
    (foundationSubsidy cNet (stateAt 9)).address =
      (stateAt 9).foundationPrimaryAddress ∧
    (foundationSubsidy cNet (stateAt 4389)).value =
      siacoins 30000 * ((144 * 365) / 12) ∧
    (foundationSubsidy cNet (stateAt 10)).value = 0 :=
  ⟨(claim5_foundation_subsidy cNet (stateAt 5)).1 (by decide),
   ((claim5_foundation_subsidy cNet (stateAt 9)).2.1 (by decide)).1,
   ((claim5_foundation_subsidy cNet (stateAt 9)).2.1 (by decide)).2,
   (claim5_foundation_subsidy cNet (stateAt 4389)).2.2.1 (by decide),
   (claim5_foundation_subsidy cNet (stateAt 10)).2.2.2 (by decide)⟩

/-! ## Claim C6: file-contract tax divisibility -/

/-- Claim C6: `FileContractTax` and `V2FileContractTax` always return
exact multiples of `SiafundCount() = 10000`, and the v2 tax of a contract
with renter and host values 100 is zero. -/
theorem claim6_tax_divisibility :
    (∀ (n : Network) (s : State) (fc : FileContract), fc.payout < 2 ^ 128 →
      fileContractTax n s fc % siafundCount = 0) ∧
    (∀ (fc : V2FileContract), v2FileContractTax fc % siafundCount = 0) ∧
    (∀ (a b : Nat),
      v2FileContractTax
        { filesize := 0, fileMerkleRoot := 0, proofHeight := 0,
          expirationHeight := 0,
          renterOutput := { value := 100, address := a },
          hostOutput := { value := 100, address := b },
          missedHostValue := 0, renterPublicKey := 0, hostPublicKey := 0,
          revisionNumber := 0 } = 0) := by
  refine ⟨?_, ?_, ?_⟩
  · intro n s fc h
    simp only [fileContractTax, siafundCount]
    set i := if childHeight s < n.hardforkTax.height
      then fc.payout * float039Num / float039Den
      else fc.payout * 39 / 1000 with hidef
    have hi : i ≤ fc.payout := by
      rw [hidef]
      unfold float039Num float039Den
      split <;> omega
    have h3 : (i - i % 10000) % 2 ^ 64 + 2 ^ 64 * ((i - i % 10000) / 2 ^ 64 % 2 ^ 64) =
        i - i % 10000 := by omega
    rw [h3]
    omega
  · intro fc
    simp only [v2FileContractTax, addCurrency, siafundCount]
    omega
  · intro a b
    simp only [v2FileContractTax, addCurrency, siafundCount]
    decide

/-- Witness for claim C6 at a concrete payout. -/
theorem claim6_tax_divisibility_witness :
    (1000000 : Nat) < 2 ^ 128 ∧
    fileContractTax cNet (stateAt 0) { payout := 1000000 } % siafundCount = 0 :=
  ⟨by decide,
    claim6_tax_divisibility.1 cNet (stateAt 0) { payout := 1000000 } (by decide)⟩

/-! ## Claim C7: storage-proof leaf index -/

theorem foldl_mod_lt (m : Nat) :
    ∀ (l : List Nat) (a : Nat), a < m →
      l.foldl (fun r c => (r * 2 ^ 64 + c) % m) a < m := by
  intro l
  induction l with
  | nil => intro a ha; simpa using ha
  | cons c cs ih =>
    intro a ha
    rw [List.foldl_cons]
    exact ih _ (Nat.mod_lt _ (by omega))

theorem leafIndex_eq_spec (fs w f : Nat) (h : 0 < fs) :
    storageProofLeafIndex fs w f = specLeafIndex fs w f := by
  have hnum : fs / 64 + (if fs % 64 ≠ 0 then 1 else 0) = (fs + 63) / 64 := by
    split <;> omega
  simp only [storageProofLeafIndex, specLeafIndex, hnum]
  rw [if_neg (show ¬((fs + 63) / 64 = 0) by omega)]

theorem leafIndex_bound (fs w f : Nat) (h : 0 < fs) :
    storageProofLeafIndex fs w f < (fs + 63) / 64 := by
  rw [leafIndex_eq_spec fs w f h]
  unfold specLeafIndex foldSeed
  exact foldl_mod_lt _ _ 0 (by omega)

/-- Claim C7: the leaf index is 0 for an empty file; for a non-empty file
it is exactly the spec's fold of the digest of `windowID || fcid` as four
big-endian u64 chunks modulo `numLeaves = ceil(filesize/64)`, and hence
always strictly below `ceil(filesize/64)`. -/
theorem claim7_storage_proof_leaf_index :
    (∀ (w f : Nat), storageProofLeafIndex 0 w f = 0) ∧
    (∀ (fs w f : Nat), 0 < fs →
      storageProofLeafIndex fs w f = specLeafIndex fs w f) ∧
    (∀ (fs w f : Nat), 0 < fs →
      storageProofLeafIndex fs w f < (fs + 63) / 64) :=
  ⟨fun w f => rfl, leafIndex_eq_spec, leafIndex_bound⟩

/-- Witness for claim C7 at a 65-byte file (two leaves). -/
theorem claim7_storage_proof_leaf_index_witness :
    (0 : Nat) < 65 ∧ storageProofLeafIndex 65 0 0 < (65 + 63) / 64 :=
  ⟨by decide, claim7_storage_proof_leaf_index.2.2 65 0 0 (by decide)⟩

/-! ## Claim C8: RPC envelope round-trip -/

/-- All zero bytes drop from the front of a byte list. -/
theorem dropWhile_zeros_append (k : Nat) (x : List Nat) :
    List.dropWhile (fun b => decide (b = 0)) (List.replicate k 0 ++ x) =
      List.dropWhile (fun b => decide (b = 0)) x := by
  induction k with
  | zero => rfl
  | succ k ih => simpa [List.replicate_succ, List.dropWhile_cons] using ih

/-- Claim C8: a written request reads back as its ID and body; a response
written with a non-`rpc.Error` error reads back as an error string that
contains the original description; a response written with no error reads
back as the decoded body. -/
theorem claim8_rpc_round_trip :
    (∀ (id bodyBytes rest : List Nat), id.length = 16 →
      readID (writeRequest id (some bodyBytes) ++ rest) =
        some (id, bodyBytes ++ rest)) ∧
    (∀ (α : Type) (encB : α → List Nat)
      (decB : List Nat → Option (α × List Nat)) (a : α) (maxLen : Nat),
      (∀ x r, decB (encB x ++ r) = some (x, r)) →
      (encB a).length ≤ maxLen →
      readRequest decB (encB a) maxLen = some a) ∧
    (∀ (α : Type) (decB : List Nat → Option (α × List Nat))
      (msg : List Nat) (maxLen : Nat), msg.length < 2 ^ 64 →
      (writeResponseBytes none (some (GoError.plain msg))).length ≤ maxLen →
      readResponse decB (writeResponseBytes none (some (GoError.plain msg)))
          maxLen =
        Except.error (respErrTag ++ errString (GoError.plain msg)) ∧
      ∃ pre post, respErrTag ++ errString (GoError.plain msg) =
        pre ++ errString (GoError.plain msg) ++ post) ∧
    (∀ (α : Type) (encB : α → List Nat)
      (decB : List Nat → Option (α × List Nat)) (a : α) (maxLen : Nat),
      (∀ x r, decB (encB x ++ r) = some (x, r)) →
      (writeResponseBytes (some (encB a)) none).length ≤ maxLen →
      readResponse decB (writeResponseBytes (some (encB a)) none) maxLen =
        Except.ok a) := by
  refine ⟨?_, ?_, ?_, ?_⟩
  · intro id bodyBytes rest h
    unfold readID writeRequest
    simp only [Option.getD_some]
    rw [List.append_assoc, show (16 : Nat) = id.length from h.symm,
      readN_append]
  · intro α encB decB a maxLen H hlen
    unfold readRequest
    rw [List.take_of_length_le hlen, ← List.append_nil (encB a), H a []]
    rfl
  · intro α decB msg maxLen hmsg hlen
    refine ⟨?_, respErrTag, [], by simp⟩
    unfold readResponse
    rw [List.take_of_length_le hlen]
    unfold writeResponseBytes
    rw [decBool_enc true]
    simp only [Option.elim_some, cond_true]
    rw [show encRpcError
        { type := List.replicate 16 0, data := [], description := msg } =
      encRpcError
        { type := List.replicate 16 0, data := [], description := msg } ++ []
      from (List.append_nil _).symm]
    rw [decRpcError_enc
      { type := List.replicate 16 0, data := [], description := msg } []
      ⟨by simp, by simp, hmsg⟩]
    simp only [Option.elim_some, errString]
  · intro α encB decB a maxLen H hlen
    unfold readResponse
    rw [List.take_of_length_le hlen]
    unfold writeResponseBytes
    simp only [Option.getD_some]
    rw [decBool_enc false]
    simp only [Option.elim_some, cond_false]
    rw [← List.append_nil (encB a), H a []]
    simp only [Option.elim_some]

/-- Witness for claim C8 with a boolean body codec and the four-byte
error description used by the spec scenario. -/
theorem claim8_rpc_round_trip_witness :
    readID (writeRequest (List.replicate 16 7) (some (encBool true)) ++ []) =
      some (List.replicate 16 7, encBool true ++ []) ∧
    readRequest decBool (encBool true) 1 = some true ∧
    (readResponse decBool
        (writeResponseBytes none (some (GoError.plain [98, 111, 111, 109]))) 64 =
      Except.error (respErrTag ++ errString (GoError.plain [98, 111, 111, 109])) ∧
      ∃ pre post, respErrTag ++ errString (GoError.plain [98, 111, 111, 109]) =
        pre ++ errString (GoError.plain [98, 111, 111, 109]) ++ post) ∧
    readResponse decBool (writeResponseBytes (some (encBool true)) none) 2 =
      Except.ok true :=
  ⟨claim8_rpc_round_trip.1 (List.replicate 16 7) (encBool true) [] (by decide),
   claim8_rpc_round_trip.2.1 Bool encBool decBool true 1 decBool_enc (by decide),
   claim8_rpc_round_trip.2.2.1 Bool decBool [98, 111, 111, 109] 64
     (by decide) (by decide),
   claim8_rpc_round_trip.2.2.2 Bool encBool decBool true 2 decBool_enc
     (by decide)⟩

/-! ## Claim C9: specifiers -/

/-- Claim C9 as stated is false: `Specifier.String` uses `bytes.Trim`,
which strips zero bytes from both ends, so a specifier with a leading zero
byte does not keep it, while stripping only the trailing padding would. -/
theorem claim9_counterexample :
    specifierString (0 :: 104 :: List.replicate 14 0) ≠
      trimTrailingZeros (0 :: 104 :: List.replicate 14 0) := by decide

/-- Claim C9 (amended): `NewSpecifier` right-pads strings of at most 16
bytes with zeros and panics on longer ones, the encoding is the 16 raw
bytes, and `String()` strips leading as well as trailing zero bytes — for
specifiers built from a string with no leading zero byte this is exactly
the original claim's trailing-padding strip; the "hello" example holds. -/
theorem claim9_specifier :
    (∀ (str : List Nat), str.length ≤ 16 →
      newSpecifier str = some (str ++ List.replicate (16 - str.length) 0)) ∧
    (∀ (s : List Nat), encSpecifier s = s) ∧
    (∀ (s : List Nat), specifierString s =
      trimTrailingZeros (trimLeadingZeros s)) ∧
    (∀ (str : List Nat) (k : Nat), (∀ hd, str.head? = some hd → hd ≠ 0) →
      specifierString (str ++ List.replicate k 0) = trimTrailingZeros str) ∧
    (newSpecifier [104, 101, 108, 108, 111] =
        some (104 :: 101 :: 108 :: 108 :: 111 :: List.replicate 11 0) ∧
      specifierString (104 :: 101 :: 108 :: 108 :: 111 :: List.replicate 11 0) =
        [104, 101, 108, 108, 111]) ∧
    (∀ (str : List Nat), 16 < str.length → newSpecifier str = none) := by
  refine ⟨?_, fun s => rfl, fun s => rfl, ?_, by decide, ?_⟩
  · intro str h
    unfold newSpecifier
    rw [if_neg (by omega)]
  · intro str k h
    cases str with
    | nil =>
      unfold specifierString trimLeadingZeros trimTrailingZeros
      rw [List.nil_append]
      rw [show List.replicate k 0 = List.replicate k 0 ++ ([] : List Nat)
        from (List.append_nil _).symm]
      rw [dropWhile_zeros_append]
      rfl
    | cons hd t =>
      have hhd : hd ≠ 0 := h hd rfl
      unfold specifierString trimLeadingZeros trimTrailingZeros
      rw [List.cons_append, List.dropWhile_cons, if_neg (by simp [hhd])]
      simp only [List.reverse_cons, List.reverse_append,
        List.reverse_replicate, List.append_assoc]
      rw [dropWhile_zeros_append]
  · intro str h
    unfold newSpecifier
    rw [if_pos h]

/-- Witness for claim C9 at the five-byte example string and a 17-byte
string. -/
theorem claim9_specifier_witness :
    newSpecifier [104, 101, 108, 108, 111] =
      some ([104, 101, 108, 108, 111] ++ List.replicate 11 0) ∧
    specifierString ([104, 101, 108, 108, 111] ++ List.replicate 11 0) =
      trimTrailingZeros [104, 101, 108, 108, 111] ∧
    newSpecifier (List.replicate 17 65) = none :=
  ⟨claim9_specifier.1 [104, 101, 108, 108, 111] (by decide),
   claim9_specifier.2.2.2.1 [104, 101, 108, 108, 111] 11 (by decide),
   claim9_specifier.2.2.2.2.2 (List.replicate 17 65) (by decide)⟩

/-! ## Claim C10: the foundation subsidy address -/

/-- Claim C10: `FoundationSubsidy` sets the output address to the state's
`FoundationPrimaryAddress` unconditionally — before the hardfork and for
zero-valued subsidies alike. -/
theorem claim10_foundation_address :
    ∀ (n : Network) (s : State),
      (foundationSubsidy n s).address = s.foundationPrimaryAddress :=
  fun n s => rfl

end SiaCore
